import Mathlib

/-!
Verification of the memoize `store` backend against its design document.

The repository contains two implementations of the same CRUD contract:

* a key-value (Cloudflare KV) implementation — handlers `listDecks`,
  `getDeck`, `createDeck`, `updateDeck`, `deleteDeck` (deck handlers file)
  and `verifyDeckOwnership`, `listCards`, `createCard`, `updateCard`,
  `deleteCard` (card handlers file); ids from `generateId` / `Id.new`;

* a relational (D1 / SQLite) implementation — `Deck.create/get/list/update/
  delete` in `src/deck/deck.js`, `Card.create/...` in `src/card/card.js`,
  `Card.delete` (delete-by-deck) in `src/deck/card.js`, and the route
  handler `router.delete("/deck/:id")` in `src/deck/delete.js`.

We embed both shallowly: the KV store becomes explicit state passing over
association lists keyed by id (the JS code prefixes keys with `deck:`,
`user_decks:`, `card:`, `deck_cards:` inside two namespaces; the prefixes
make the four key families disjoint, so the state keeps them as four
separate lists keyed by the unprefixed id).  Every KV access additionally
appends an entry to an operation log, so that ordering claims about the
cascade delete can be stated as facts about the emitted trace.  The D1
implementation becomes list-of-rows tables with SQL statements translated
to `filter`/`find?`/`map`/sort.  Time (`Date.now()` / `new
Date().toISOString()`) and fresh ids (`Id.new()` / `generateId`) are
explicit parameters.
-/

namespace MemoizeStore

/-! ## Identifier generator (`src/id/id.js`)

`Id.new()` is `Math.random().toString(32).slice(2)`.  `Math.random()`
returns a double `k / 2^53` with `k < 2^53` (53 uniform bits, range
`[0, 1)`).  JavaScript `Number.prototype.toString(32)` renders `0` as
`"0"`, and a nonzero fraction as `"0."` followed by its base-32 fraction
digits.  Since `32^11 = 2^55`, the fraction `k / 2^53 = 4k / 32^11` has an
exact 11-digit base-32 expansion; the rendered digit string is that
expansion with trailing zero digits stripped (the engine stops emitting
digits once the remainder is exhausted).  `.slice(2)` drops the first two
characters. -/

/-- The base-32 digit alphabet of JS `toString(32)`: `0`–`9` then `a`–`v`. -/
def base32Char (d : Nat) : Char :=
  if d < 10 then Char.ofNat (48 + d) else Char.ofNat (87 + d)

/-- The 11 base-32 fraction digits of `k / 2^53` (exact, `32^11 = 2^55`). -/
def frac53Digits (k : Nat) : List Nat :=
  (List.range 11).map (fun i => k * 32 ^ (i + 1) / 2 ^ 53 % 32)

/-- Strip trailing `0` digits from a digit list. -/
def stripTrailingZeros (l : List Nat) : List Nat :=
  (l.reverse.dropWhile (· = 0)).reverse

/-- JS `(k / 2^53).toString(32)`: `"0"` for zero, otherwise `"0."` and the
exact base-32 fraction digits with trailing zeros stripped. -/
def jsToStringBase32 (k : Nat) : String :=
  if k = 0 then "0"
  else "0." ++ String.mk ((stripTrailingZeros (frac53Digits k)).map base32Char)

/-- `Id.new()` from `src/id/id.js`, as a function of the random source
state `k` (`Math.random() = k / 2^53`):
`Math.random().toString(32).slice(2)`. -/
def idNew (k : Nat) : String :=
  (jsToStringBase32 k).drop 2

/-! ## KV record store

Association-list primitives standing for the per-key get/put/delete of a
KV namespace. -/

/-- `get`: the value stored at `k`, if any. -/
def kvGet {β : Type} (l : List (String × β)) (k : String) : Option β :=
  (l.find? (fun p => p.1 = k)).map (·.2)

/-- `put`: overwrite the value at `k`. -/
def kvPut {β : Type} (l : List (String × β)) (k : String) (v : β) :
    List (String × β) :=
  (l.filter (fun p => ¬ p.1 = k)) ++ [(k, v)]

/-- `delete`: remove the value at `k` (no-op when absent). -/
def kvDel {β : Type} (l : List (String × β)) (k : String) :
    List (String × β) :=
  l.filter (fun p => ¬ p.1 = k)

/-- A deck record as the KV implementation stores it under `deck:{id}`. -/
structure DeckRec where
  id : String
  userId : String
  name : String
  description : String
  created_at : String
  updated_at : String
deriving DecidableEq, Repr

/-- A card record as the KV implementation stores it under `card:{id}`. -/
structure CardRec where
  id : String
  deckId : String
  front : String
  back : String
  tags : List String
  created_at : String
  updated_at : String
deriving DecidableEq, Repr

/-- One KV store access, for the operation log. -/
inductive Op where
  | getDeck (id : String)
  | putDeck (id : String)
  | delDeck (id : String)
  | getUserDecks (userId : String)
  | putUserDecks (userId : String)
  | getCard (id : String)
  | putCard (id : String)
  | delCard (id : String)
  | getDeckCards (deckId : String)
  | putDeckCards (deckId : String)
  | delDeckCards (deckId : String)
deriving DecidableEq, Repr

/-- The KV state: the four key families of `DECKS_KV` / `CARDS_KV`, plus
the log of store accesses performed so far. -/
structure St where
  decks : List (String × DeckRec)
  userDecks : List (String × List String)
  cards : List (String × CardRec)
  deckCards : List (String × List String)
  log : List Op
deriving Repr

/-- `env.DECKS_KV.get("deck:" + id, "json")`. -/
def stGetDeck (s : St) (id : String) : Option DeckRec × St :=
  (kvGet s.decks id, { s with log := s.log ++ [Op.getDeck id] })

/-- `env.DECKS_KV.put("deck:" + id, JSON.stringify(d))`. -/
def stPutDeck (s : St) (id : String) (d : DeckRec) : St :=
  { s with decks := kvPut s.decks id d, log := s.log ++ [Op.putDeck id] }

/-- `env.DECKS_KV.delete("deck:" + id)`. -/
def stDelDeck (s : St) (id : String) : St :=
  { s with decks := kvDel s.decks id, log := s.log ++ [Op.delDeck id] }

/-- `env.DECKS_KV.get("user_decks:" + u, "json")`. -/
def stGetUserDecks (s : St) (u : String) : Option (List String) × St :=
  (kvGet s.userDecks u, { s with log := s.log ++ [Op.getUserDecks u] })

/-- `env.DECKS_KV.put("user_decks:" + u, JSON.stringify(obj))`. -/
def stPutUserDecks (s : St) (u : String) (ids : List String) : St :=
  { s with userDecks := kvPut s.userDecks u ids,
           log := s.log ++ [Op.putUserDecks u] }

/-- `env.CARDS_KV.get("card:" + id, "json")`. -/
def stGetCard (s : St) (id : String) : Option CardRec × St :=
  (kvGet s.cards id, { s with log := s.log ++ [Op.getCard id] })

/-- `env.CARDS_KV.put("card:" + id, JSON.stringify(c))`. -/
def stPutCard (s : St) (id : String) (c : CardRec) : St :=
  { s with cards := kvPut s.cards id c, log := s.log ++ [Op.putCard id] }

/-- `env.CARDS_KV.delete("card:" + id)`. -/
def stDelCard (s : St) (id : String) : St :=
  { s with cards := kvDel s.cards id, log := s.log ++ [Op.delCard id] }

/-- `env.CARDS_KV.get("deck_cards:" + d, "json")`. -/
def stGetDeckCards (s : St) (d : String) : Option (List String) × St :=
  (kvGet s.deckCards d, { s with log := s.log ++ [Op.getDeckCards d] })

/-- `env.CARDS_KV.put("deck_cards:" + d, JSON.stringify(obj))`. -/
def stPutDeckCards (s : St) (d : String) (ids : List String) : St :=
  { s with deckCards := kvPut s.deckCards d ids,
           log := s.log ++ [Op.putDeckCards d] }

/-- `env.CARDS_KV.delete("deck_cards:" + d)`. -/
def stDelDeckCards (s : St) (d : String) : St :=
  { s with deckCards := kvDel s.deckCards d,
           log := s.log ++ [Op.delDeckCards d] }

/-! ## KV handler results

The handlers build responses through the `success(data, status = 200)` and
`error(message, status, code)` helpers of the utils module; we keep the
exact argument triples as the observable outcome. -/

/-- The `error(message, status, code)` response body. -/
structure ErrResp where
  message : String
  status : Nat
  code : String
deriving DecidableEq, Repr

/-- Outcome of a KV handler: `success(payload, status)` or
`error(message, status, code)`. -/
inductive KVRes (α : Type) where
  | ok (status : Nat) (payload : α)
  | err (e : ErrResp)
deriving DecidableEq, Repr

/-- Whether a handler outcome is a success response. -/
def KVRes.isOk {α : Type} : KVRes α → Bool
  | .ok _ _ => true
  | .err _ => false

/-- JS falsiness of a possibly-undefined string (`!x` is true for both
`undefined` and `""`). -/
def jsFalsy (o : Option String) : Bool :=
  match o with
  | none => true
  | some s => s = ""

/-! ## KV deck handlers (deck handlers file, `listDecks` … `deleteDeck`)

Each handler takes the authenticated `request.auth.userId`, the id parsed
from the URL path (the JS guards `if (!deckId)` become a check against the
empty string, the JS value a missing path segment yields), the body
fields (`Option` for possibly-undefined), the current timestamp and any
freshly generated id, and the store state. -/

/-- `Promise.all(deckIds.map(deckId => env.DECKS_KV.get("deck:" + deckId,
"json")))` — resolve each id in order. -/
def mapGetDeck : List String → St → List (Option DeckRec) × St
  | [], s => ([], s)
  | id :: rest, s =>
    let (d, s1) := stGetDeck s id
    let (ds, s2) := mapGetDeck rest s1
    (d :: ds, s2)

/-- `listDecks(request, env)`: read the owner's deck-index, resolve each
id, drop the `null`s, return `{decks, total}`. -/
def listDecks (userId : String) (s : St) :
    KVRes (List DeckRec × Nat) × St :=
  let (userDecksData, s1) := stGetUserDecks s userId
  let deckIds := userDecksData.getD []
  let (decks, s2) := mapGetDeck deckIds s1
  let validDecks := decks.filterMap id
  (.ok 200 (validDecks, validDecks.length), s2)

/-- `getDeck(request, env)`: missing id → 400; absent record → 404
`DECK_NOT_FOUND`; foreign owner → 403 `FORBIDDEN`; otherwise the deck and
its card count. -/
def getDeck (userId deckId : String) (s : St) :
    KVRes (DeckRec × Nat) × St :=
  if deckId = "" then (.err ⟨"Missing deck ID", 400, "MISSING_DECK_ID"⟩, s)
  else
    let (odeck, s1) := stGetDeck s deckId
    match odeck with
    | none => (.err ⟨"Deck not found", 404, "DECK_NOT_FOUND"⟩, s1)
    | some deck =>
      if deck.userId ≠ userId then
        (.err ⟨"Unauthorized access to deck", 403, "FORBIDDEN"⟩, s1)
      else
        let (deckCardsData, s2) := stGetDeckCards s1 deckId
        let cardCount := (deckCardsData.getD []).length
        (.ok 200 (deck, cardCount), s2)

/-- `createDeck(request, env)`: validate the name, build the record with
the generated id, save it, append the id to the owner's deck-index, and
initialize the empty card-index. -/
def createDeck (userId : String) (name description : Option String)
    (now freshDeckId : String) (s : St) : KVRes DeckRec × St :=
  if jsFalsy name then
    (.err ⟨"Missing deck name", 400, "MISSING_DECK_NAME"⟩, s)
  else
    let deck : DeckRec :=
      { id := freshDeckId, userId := userId, name := name.getD ""
        description := description.getD "", created_at := now
        updated_at := now }
    let s1 := stPutDeck s freshDeckId deck
    let (userDecksData, s2) := stGetUserDecks s1 userId
    let deckIds := userDecksData.getD [] ++ [freshDeckId]
    let s3 := stPutUserDecks s2 userId deckIds
    let s4 := stPutDeckCards s3 freshDeckId []
    (.ok 201 deck, s4)

/-- `updateDeck(request, env)`: read the record, check ownership, then
rewrite it with `name`/`description` taken from the body when supplied
(`...(name !== undefined && { name })`) and a fresh `updated_at`. -/
def updateDeck (userId deckId : String) (name description : Option String)
    (now : String) (s : St) : KVRes DeckRec × St :=
  if deckId = "" then (.err ⟨"Missing deck ID", 400, "MISSING_DECK_ID"⟩, s)
  else
    let (odeck, s1) := stGetDeck s deckId
    match odeck with
    | none => (.err ⟨"Deck not found", 404, "DECK_NOT_FOUND"⟩, s1)
    | some deck =>
      if deck.userId ≠ userId then
        (.err ⟨"Unauthorized access to deck", 403, "FORBIDDEN"⟩, s1)
      else
        let updatedDeck : DeckRec :=
          { deck with name := name.getD deck.name
                      description := description.getD deck.description
                      updated_at := now }
        let s2 := stPutDeck s1 deckId updatedDeck
        (.ok 200 updatedDeck, s2)

/-- `Promise.all(cardIds.map(cardId => env.CARDS_KV.delete("card:" +
cardId)))` — delete each card record, in index order. -/
def mapDelCard : List String → St → St
  | [], s => s
  | id :: rest, s => mapDelCard rest (stDelCard s id)

/-- `deleteDeck(request, env)`: read and ownership-check the deck, delete
every card in its card-index, delete the card-index, delete the deck
record, and prune the owner's deck-index. -/
def deleteDeck (userId deckId : String) (s : St) :
    KVRes (String × String) × St :=
  if deckId = "" then (.err ⟨"Missing deck ID", 400, "MISSING_DECK_ID"⟩, s)
  else
    let (odeck, s1) := stGetDeck s deckId
    match odeck with
    | none => (.err ⟨"Deck not found", 404, "DECK_NOT_FOUND"⟩, s1)
    | some deck =>
      if deck.userId ≠ userId then
        (.err ⟨"Unauthorized access to deck", 403, "FORBIDDEN"⟩, s1)
      else
        let (deckCardsData, s2) := stGetDeckCards s1 deckId
        let cardIds := deckCardsData.getD []
        let s3 := mapDelCard cardIds s2
        let s4 := stDelDeckCards s3 deckId
        let s5 := stDelDeck s4 deckId
        let (userDecksData, s6) := stGetUserDecks s5 userId
        let s7 :=
          match userDecksData with
          | none => s6
          | some deckIds =>
            stPutUserDecks s6 userId (deckIds.filter (fun i => ¬ i = deckId))
        (.ok 200 ("Deck deleted successfully", deckId), s7)

/-! ## KV card handlers (card handlers file, `verifyDeckOwnership` …
`deleteCard`) -/

/-- `verifyDeckOwnership(deckId, userId, env)`: the deck when it exists
and belongs to the user, otherwise the error response the caller
returns. -/
def verifyDeckOwnership (deckId userId : String) (s : St) :
    Except ErrResp DeckRec × St :=
  let (odeck, s1) := stGetDeck s deckId
  match odeck with
  | none => (.error ⟨"Deck not found", 404, "DECK_NOT_FOUND"⟩, s1)
  | some deck =>
    if deck.userId ≠ userId then
      (.error ⟨"Unauthorized access to deck", 403, "FORBIDDEN"⟩, s1)
    else (.ok deck, s1)

/-- `Promise.all(cardIds.map(cardId => env.CARDS_KV.get("card:" + cardId,
"json")))` — resolve each card id in order. -/
def mapGetCard : List String → St → List (Option CardRec) × St
  | [], s => ([], s)
  | id :: rest, s =>
    let (c, s1) := stGetCard s id
    let (cs, s2) := mapGetCard rest s1
    (c :: cs, s2)

/-- `listCards(request, env)`: ownership-check the deck, read its
card-index, resolve each id, drop the `null`s, return `{cards, total}`. -/
def listCards (userId deckId : String) (s : St) :
    KVRes (List CardRec × Nat) × St :=
  if deckId = "" then (.err ⟨"Missing deck ID", 400, "MISSING_DECK_ID"⟩, s)
  else
    let (verifyResult, s1) := verifyDeckOwnership deckId userId s
    match verifyResult with
    | .error e => (.err e, s1)
    | .ok _ =>
      let (deckCardsData, s2) := stGetDeckCards s1 deckId
      let cardIds := deckCardsData.getD []
      let (cards, s3) := mapGetCard cardIds s2
      let validCards := cards.filterMap id
      (.ok 200 (validCards, validCards.length), s3)

/-- `createCard(request, env)`: validate `front`/`back`, ownership-check
the deck, save the card, append its id to the deck's card-index, and
refresh the parent deck's `updated_at`. -/
def createCard (userId deckId : String)
    (front back : Option String) (tags : Option (List String))
    (now freshCardId : String) (s : St) : KVRes CardRec × St :=
  if deckId = "" then (.err ⟨"Missing deck ID", 400, "MISSING_DECK_ID"⟩, s)
  else if jsFalsy front || jsFalsy back then
    (.err ⟨"Missing card front or back", 400, "MISSING_CARD_DATA"⟩, s)
  else
    let (verifyResult, s1) := verifyDeckOwnership deckId userId s
    match verifyResult with
    | .error e => (.err e, s1)
    | .ok deck =>
      let card : CardRec :=
        { id := freshCardId, deckId := deckId, front := front.getD ""
          back := back.getD "", tags := tags.getD []
          created_at := now, updated_at := now }
      let s2 := stPutCard s1 freshCardId card
      let (deckCardsData, s3) := stGetDeckCards s2 deckId
      let cardIds := deckCardsData.getD [] ++ [freshCardId]
      let s4 := stPutDeckCards s3 deckId cardIds
      let s5 := stPutDeck s4 deckId { deck with updated_at := now }
      (.ok 201 card, s5)

/-- `updateCard(request, env)`: read the card, ownership-check its deck,
rewrite the card with the supplied fields and a fresh `updated_at`, and
refresh the parent deck's `updated_at`. -/
def updateCard (userId cardId : String)
    (front back : Option String) (tags : Option (List String))
    (now : String) (s : St) : KVRes CardRec × St :=
  if cardId = "" then (.err ⟨"Missing card ID", 400, "MISSING_CARD_ID"⟩, s)
  else
    let (ocard, s1) := stGetCard s cardId
    match ocard with
    | none => (.err ⟨"Card not found", 404, "CARD_NOT_FOUND"⟩, s1)
    | some card =>
      let (verifyResult, s2) := verifyDeckOwnership card.deckId userId s1
      match verifyResult with
      | .error e => (.err e, s2)
      | .ok deck =>
        let updatedCard : CardRec :=
          { card with front := front.getD card.front
                      back := back.getD card.back
                      tags := tags.getD card.tags
                      updated_at := now }
        let s3 := stPutCard s2 cardId updatedCard
        let s4 := stPutDeck s3 card.deckId { deck with updated_at := now }
        (.ok 200 updatedCard, s4)

/-- `deleteCard(request, env)`: read the card, ownership-check its deck,
delete the record, prune the deck's card-index, and refresh the parent
deck's `updated_at`. -/
def deleteCard (userId cardId : String) (now : String) (s : St) :
    KVRes (String × String) × St :=
  if cardId = "" then (.err ⟨"Missing card ID", 400, "MISSING_CARD_ID"⟩, s)
  else
    let (ocard, s1) := stGetCard s cardId
    match ocard with
    | none => (.err ⟨"Card not found", 404, "CARD_NOT_FOUND"⟩, s1)
    | some card =>
      let (verifyResult, s2) := verifyDeckOwnership card.deckId userId s1
      match verifyResult with
      | .error e => (.err e, s2)
      | .ok deck =>
        let s3 := stDelCard s2 cardId
        let (deckCardsData, s4) := stGetDeckCards s3 card.deckId
        let s5 :=
          match deckCardsData with
          | none => s4
          | some cardIds =>
            stPutDeckCards s4 card.deckId
              (cardIds.filter (fun i => ¬ i = cardId))
        let s6 := stPutDeck s5 card.deckId { deck with updated_at := now }
        (.ok 200 ("Card deleted successfully", cardId), s6)

/-! ## D1 (relational) implementation

Tables are lists of rows; `PRIMARY KEY` uniqueness and the `card.deck_id`
foreign key of the migration schema are enforced where a statement would
hit them.  `.first()` becomes `find?`, `DELETE`/`UPDATE ... WHERE` become
`filter`/`map`, `ORDER BY created_at DESC` becomes a sort.  `Date.now()`
is an explicit `Nat` parameter, `Id.new()` an explicit `String`
parameter. -/

/-- A row of the `deck` table. -/
structure DeckRow where
  id : String
  name : String
  description : String
  created_at : Nat
  user_id : String
deriving DecidableEq, Repr

/-- A row of the `card` table (scheduling columns are nullable and opaque
here; `front`/`back` are `NOT NULL` and checked by the route before the
insert). -/
structure CardRow where
  id : String
  front : String
  back : String
  state : Option String
  stability : Option Int
  difficulty : Option Int
  due : Option Int
  last_review : Option Int
  reps : Option Int
  lapses : Option Int
  created_at : Nat
  deck_id : String
  user_id : String
deriving DecidableEq, Repr

/-- The duck-typed `{ data }` / `{ error }` result the D1 services
return. -/
inductive D1Res (α : Type) where
  | data (a : α)
  | error (msg : String)
deriving DecidableEq, Repr

/-- The D1 database state. -/
structure D1St where
  deck : List DeckRow
  card : List CardRow
deriving DecidableEq, Repr

/-- `Deck.get` (`src/deck/deck.js`): `SELECT … FROM deck WHERE id = ? AND
user_id = ?` then `.first()`; a missing row and a row owned by someone
else both yield the same `{ error: "Failed to get deck" }`. -/
def d1DeckGet (tbl : List DeckRow) (id user_id : String) :
    D1Res DeckRow :=
  match tbl.find? (fun r => r.id = id && r.user_id = user_id) with
  | some row => .data row
  | none => .error "Failed to get deck"

/-- `Deck.list` (`src/deck/deck.js`): `SELECT … WHERE user_id = ? ORDER BY
created_at DESC`. -/
def d1DeckList (tbl : List DeckRow) (user_id : String) : List DeckRow :=
  List.insertionSort (fun a b => b.created_at ≤ a.created_at)
    (tbl.filter (fun r => r.user_id = user_id))

/-- `Deck.update` (`src/deck/deck.js`): the handler runs `UPDATE deck SET
name = ?, description = ? WHERE id = ? AND user_id = ?` — but the bound
`id` is `const id = Id.new()`, a freshly generated identifier
(`freshId`), not the id of the deck being updated. -/
def d1DeckUpdate (tbl : List DeckRow) (name description : String)
    (freshId user_id : String) : List DeckRow :=
  tbl.map (fun r =>
    if r.id = freshId ∧ r.user_id = user_id then
      { r with name := name, description := description }
    else r)

/-- `Card.delete` in `src/deck/card.js` (delete-by-deck): `DELETE FROM
card WHERE deck_id = ? AND user_id = ?`.  `ok` is the `success` flag of
`.run()`: when the statement fails nothing is deleted and the caller gets
`{ error: "Failed to delete cards" }`. -/
def d1CardDeleteByDeck (st : D1St) (deck_id user_id : String)
    (ok : Bool) : D1Res Bool × D1St :=
  if ok then
    (.data true,
     { st with card :=
         st.card.filter (fun c =>
           ¬ (c.deck_id = deck_id ∧ c.user_id = user_id)) })
  else (.error "Failed to delete cards", st)

/-- `Deck.delete` (`src/deck/deck.js`): `DELETE FROM deck WHERE id = ? AND
user_id = ?`; when the row is removed, `ON DELETE CASCADE` on
`card.deck_id` also removes the cards referencing it.  `ok` is the
`success` flag of `.run()`, which is true whenever the statement executes
without a platform error — also when zero rows match the `WHERE` clause
(the same semantics the zero-row `UPDATE` of `Deck.update` exhibits), so
the code's `"Deck not found or not authorized"` branch is reached only on
a platform failure, never merely because the deck is absent. -/
def d1DeckDelete (st : D1St) (id user_id : String) (ok : Bool) :
    D1Res Bool × D1St :=
  if ok then
    let removed := st.deck.any (fun r => r.id = id && r.user_id = user_id)
    (.data true,
     { deck := st.deck.filter (fun r => ¬ (r.id = id ∧ r.user_id = user_id))
       card :=
         if removed then st.card.filter (fun c => ¬ c.deck_id = id)
         else st.card })
  else (.error "Deck not found or not authorized", st)

/-- The `router.delete("/deck/:id")` handler of `src/deck/delete.js`:
first `Card.deleteByDeck(deck, user)`; when that returns an error the
handler responds with it and `Deck.delete` never runs; otherwise
`Deck.delete(deck, user)`. -/
def d1DeckDeleteRoute (st : D1St) (id user_id : String)
    (cardsOk deckOk : Bool) : D1Res Bool × D1St :=
  let (cardsResult, st1) := d1CardDeleteByDeck st id user_id cardsOk
  match cardsResult with
  | .error msg => (.error msg, st1)
  | .data _ => d1DeckDelete st1 id user_id deckOk

/-- `Card.create` (`src/card/card.js`, second definition): `INSERT INTO
card (…) VALUES (…)` with the caller's `user_id` and the request's
`deck_id`.  The statement only enforces the schema constraints — `id`
`PRIMARY KEY` and the `deck_id` foreign key (the referenced deck must
exist; no check that it belongs to `user_id`). -/
def d1CardCreate (st : D1St) (id front back : String)
    (state : Option String) (stability difficulty due last_review reps
    lapses : Option Int) (created_at : Nat) (deck_id user_id : String) :
    D1Res CardRow × D1St :=
  if st.card.any (fun r => r.id = id) then
    (.error "UNIQUE constraint failed: card.id", st)
  else if ¬ st.deck.any (fun d => d.id = deck_id) then
    (.error "FOREIGN KEY constraint failed", st)
  else
    let row : CardRow :=
      { id := id, front := front, back := back, state := state
        stability := stability, difficulty := difficulty, due := due
        last_review := last_review, reps := reps, lapses := lapses
        created_at := created_at, deck_id := deck_id, user_id := user_id }
    (.data row, { st with card := st.card ++ [row] })

/-! ## Store lemmas -/

theorem kvGet_nil {β : Type} (k : String) :
    kvGet ([] : List (String × β)) k = none := rfl

theorem kvGet_cons_hit {β : Type} (a : String × β) (l : List (String × β))
    (k : String) (ha : a.1 = k) : kvGet (a :: l) k = some a.2 := by
  unfold kvGet
  rw [List.find?_cons_of_pos l (by simp [ha])]
  rfl

theorem kvGet_cons_miss {β : Type} (a : String × β)
    (l : List (String × β)) (k : String) (ha : ¬ a.1 = k) :
    kvGet (a :: l) k = kvGet l k := by
  unfold kvGet
  rw [List.find?_cons_of_neg l (by simp [ha])]

theorem kvPut_cons_drop {β : Type} (a : String × β)
    (l : List (String × β)) (k : String) (v : β) (ha : a.1 = k) :
    kvPut (a :: l) k v = kvPut l k v := by
  simp [kvPut, List.filter_cons, ha]

theorem kvPut_cons_keep {β : Type} (a : String × β)
    (l : List (String × β)) (k : String) (v : β) (ha : ¬ a.1 = k) :
    kvPut (a :: l) k v = a :: kvPut l k v := by
  simp [kvPut, List.filter_cons, ha]

theorem kvDel_cons_drop {β : Type} (a : String × β)
    (l : List (String × β)) (k : String) (ha : a.1 = k) :
    kvDel (a :: l) k = kvDel l k := by
  simp [kvDel, List.filter_cons, ha]

theorem kvDel_cons_keep {β : Type} (a : String × β)
    (l : List (String × β)) (k : String) (ha : ¬ a.1 = k) :
    kvDel (a :: l) k = a :: kvDel l k := by
  simp [kvDel, List.filter_cons, ha]

theorem kvGet_kvPut_same {β : Type} (l : List (String × β)) (k : String)
    (v : β) : kvGet (kvPut l k v) k = some v := by
  induction l with
  | nil => simp [kvPut, kvGet_cons_hit]
  | cons a l ih =>
    by_cases ha : a.1 = k
    · rw [kvPut_cons_drop a l k v ha]; exact ih
    · rw [kvPut_cons_keep a l k v ha, kvGet_cons_miss a _ k ha]; exact ih

theorem kvGet_kvPut_ne {β : Type} (l : List (String × β)) (k k' : String)
    (v : β) (h : k' ≠ k) : kvGet (kvPut l k v) k' = kvGet l k' := by
  induction l with
  | nil =>
    show kvGet [(k, v)] k' = kvGet [] k'
    rw [kvGet_cons_miss (k, v) [] k' (Ne.symm h)]
  | cons a l ih =>
    by_cases ha : a.1 = k
    · have hfa : ¬ a.1 = k' := fun hk => h (hk ▸ ha ▸ rfl)
      rw [kvPut_cons_drop a l k v ha, kvGet_cons_miss a l k' hfa]; exact ih
    · by_cases ha' : a.1 = k'
      · rw [kvPut_cons_keep a l k v ha, kvGet_cons_hit a _ k' ha',
          kvGet_cons_hit a l k' ha']
      · rw [kvPut_cons_keep a l k v ha, kvGet_cons_miss a _ k' ha',
          kvGet_cons_miss a l k' ha']
        exact ih

theorem kvGet_kvDel_same {β : Type} (l : List (String × β)) (k : String) :
    kvGet (kvDel l k) k = none := by
  induction l with
  | nil => rfl
  | cons a l ih =>
    by_cases ha : a.1 = k
    · rw [kvDel_cons_drop a l k ha]; exact ih
    · rw [kvDel_cons_keep a l k ha, kvGet_cons_miss a _ k ha]; exact ih

theorem kvGet_kvDel_ne {β : Type} (l : List (String × β)) (k k' : String)
    (h : k' ≠ k) : kvGet (kvDel l k) k' = kvGet l k' := by
  induction l with
  | nil => rfl
  | cons a l ih =>
    by_cases ha : a.1 = k
    · have hfa : ¬ a.1 = k' := fun hk => h (hk ▸ ha ▸ rfl)
      rw [kvDel_cons_drop a l k ha, kvGet_cons_miss a l k' hfa]; exact ih
    · by_cases ha' : a.1 = k'
      · rw [kvDel_cons_keep a l k ha, kvGet_cons_hit a _ k' ha',
          kvGet_cons_hit a l k' ha']
      · rw [kvDel_cons_keep a l k ha, kvGet_cons_miss a _ k' ha',
          kvGet_cons_miss a l k' ha']
        exact ih

/-- Resolving a list of deck ids only appends reads to the log. -/
theorem mapGetDeck_eq (ids : List String) (s : St) :
    mapGetDeck ids s =
      (ids.map (kvGet s.decks),
       { s with log := s.log ++ ids.map Op.getDeck }) := by
  induction ids generalizing s with
  | nil => simp [mapGetDeck]
  | cons i ids ih => simp [mapGetDeck, stGetDeck, ih]

/-- Resolving a list of card ids only appends reads to the log. -/
theorem mapGetCard_eq (ids : List String) (s : St) :
    mapGetCard ids s =
      (ids.map (kvGet s.cards),
       { s with log := s.log ++ ids.map Op.getCard }) := by
  induction ids generalizing s with
  | nil => simp [mapGetCard]
  | cons i ids ih => simp [mapGetCard, stGetCard, ih]

/-- Deleting a list of card records folds `kvDel` over the card family
and logs one delete per id, touching nothing else. -/
theorem mapDelCard_eq (ids : List String) (s : St) :
    mapDelCard ids s =
      { s with cards := ids.foldl kvDel s.cards,
               log := s.log ++ ids.map Op.delCard } := by
  induction ids generalizing s with
  | nil => simp [mapDelCard]
  | cons i ids ih => simp [mapDelCard, stDelCard, ih]

/-- Folding deletions never resurrects a key that is already absent. -/
theorem kvGet_foldl_kvDel_of_none {β : Type} (ids : List String)
    (l : List (String × β)) (c : String) (h0 : kvGet l c = none) :
    kvGet (ids.foldl kvDel l) c = none := by
  induction ids generalizing l with
  | nil => simpa using h0
  | cons j js ih =>
    simp only [List.foldl_cons]
    apply ih
    by_cases hj : c = j
    · subst hj; exact kvGet_kvDel_same l c
    · rw [kvGet_kvDel_ne l j c hj]; exact h0

/-- After folding deletions for `ids`, every id in `ids` is gone. -/
theorem kvGet_foldl_kvDel {β : Type} (ids : List String)
    (l : List (String × β)) (c : String) (hc : c ∈ ids) :
    kvGet (ids.foldl kvDel l) c = none := by
  induction ids generalizing l with
  | nil => cases hc
  | cons i ids ih =>
    simp only [List.foldl_cons]
    rcases List.mem_cons.mp hc with h | h
    · subst h
      exact kvGet_foldl_kvDel_of_none ids (kvDel l c) c (kvGet_kvDel_same l c)
    · exact ih (kvDel l i) h

/-- Full characterization of a successful `deleteDeck` run: the response,
the four key families of the final store, and the exact operation trace
it appends. -/
theorem deleteDeck_spec (s : St) (userId deckId : String) (deck : DeckRec)
    (hne : ¬ deckId = "") (hd : kvGet s.decks deckId = some deck)
    (ho : deck.userId = userId) :
    deleteDeck userId deckId s =
      (.ok 200 ("Deck deleted successfully", deckId),
       { decks := kvDel s.decks deckId
         userDecks :=
           match kvGet s.userDecks userId with
           | none => s.userDecks
           | some ids =>
             kvPut s.userDecks userId (ids.filter (fun i => ¬ i = deckId))
         cards := ((kvGet s.deckCards deckId).getD []).foldl kvDel s.cards
         deckCards := kvDel s.deckCards deckId
         log := s.log ++ [Op.getDeck deckId, Op.getDeckCards deckId]
           ++ ((kvGet s.deckCards deckId).getD []).map Op.delCard
           ++ [Op.delDeckCards deckId, Op.delDeck deckId,
               Op.getUserDecks userId]
           ++ match kvGet s.userDecks userId with
              | none => []
              | some _ => [Op.putUserDecks userId] }) := by
  simp only [deleteDeck, stGetDeck, stGetDeckCards, stDelDeckCards,
    stDelDeck, stGetUserDecks, stPutUserDecks, if_neg hne, hd, ho,
    mapDelCard_eq]
  cases hud : kvGet s.userDecks userId with
  | none => simp [hud]
  | some ids => simp [hud]

/-- Full characterization of a successful `createCard` run. -/
theorem createCard_success_spec (s : St) (userId deckId : String)
    (front back : Option String) (tags : Option (List String))
    (now freshCardId : String) (deck : DeckRec)
    (hne : ¬ deckId = "") (hfb : ¬ (jsFalsy front || jsFalsy back) = true)
    (hd : kvGet s.decks deckId = some deck) (ho : deck.userId = userId) :
    createCard userId deckId front back tags now freshCardId s =
      (.ok 201
        { id := freshCardId, deckId := deckId, front := front.getD ""
          back := back.getD "", tags := tags.getD []
          created_at := now, updated_at := now },
       { decks := kvPut s.decks deckId { deck with updated_at := now }
         userDecks := s.userDecks
         cards := kvPut s.cards freshCardId
           { id := freshCardId, deckId := deckId, front := front.getD ""
             back := back.getD "", tags := tags.getD []
             created_at := now, updated_at := now }
         deckCards := kvPut s.deckCards deckId
           ((kvGet s.deckCards deckId).getD [] ++ [freshCardId])
         log := s.log ++ [Op.getDeck deckId, Op.putCard freshCardId,
           Op.getDeckCards deckId, Op.putDeckCards deckId,
           Op.putDeck deckId] }) := by
  have hf : jsFalsy front = false := by
    cases hj : jsFalsy front
    · rfl
    · exact absurd (by simp [hj]) hfb
  have hb : jsFalsy back = false := by
    cases hj : jsFalsy back
    · rfl
    · exact absurd (by simp [hj]) hfb
  simp [createCard, verifyDeckOwnership, stGetDeck, stPutCard,
    stGetDeckCards, stPutDeckCards, stPutDeck, if_neg hne, hf, hb,
    hd, ho]

/-- Full characterization of a successful `updateCard` run. -/
theorem updateCard_success_spec (s : St) (userId cardId : String)
    (front back : Option String) (tags : Option (List String))
    (now : String) (card : CardRec) (deck : DeckRec)
    (hne : ¬ cardId = "") (hc : kvGet s.cards cardId = some card)
    (hd : kvGet s.decks card.deckId = some deck)
    (ho : deck.userId = userId) :
    updateCard userId cardId front back tags now s =
      (.ok 200
        { card with front := front.getD card.front
                    back := back.getD card.back
                    tags := tags.getD card.tags, updated_at := now },
       { decks := kvPut s.decks card.deckId { deck with updated_at := now }
         userDecks := s.userDecks
         cards := kvPut s.cards cardId
           { card with front := front.getD card.front
                       back := back.getD card.back
                       tags := tags.getD card.tags, updated_at := now }
         deckCards := s.deckCards
         log := s.log ++ [Op.getCard cardId, Op.getDeck card.deckId,
           Op.putCard cardId, Op.putDeck card.deckId] }) := by
  simp [updateCard, verifyDeckOwnership, stGetCard, stGetDeck, stPutCard,
    stPutDeck, if_neg hne, hc, hd, ho]

/-- Full characterization of a successful `deleteCard` run. -/
theorem deleteCard_success_spec (s : St) (userId cardId now : String)
    (card : CardRec) (deck : DeckRec)
    (hne : ¬ cardId = "") (hc : kvGet s.cards cardId = some card)
    (hd : kvGet s.decks card.deckId = some deck)
    (ho : deck.userId = userId) :
    deleteCard userId cardId now s =
      (.ok 200 ("Card deleted successfully", cardId),
       { decks := kvPut s.decks card.deckId { deck with updated_at := now }
         userDecks := s.userDecks
         cards := kvDel s.cards cardId
         deckCards :=
           match kvGet s.deckCards card.deckId with
           | none => s.deckCards
           | some ids =>
             kvPut s.deckCards card.deckId
               (ids.filter (fun i => ¬ i = cardId))
         log := s.log ++ [Op.getCard cardId, Op.getDeck card.deckId,
             Op.delCard cardId, Op.getDeckCards card.deckId]
           ++ (match kvGet s.deckCards card.deckId with
               | none => []
               | some _ => [Op.putDeckCards card.deckId])
           ++ [Op.putDeck card.deckId] }) := by
  simp only [deleteCard, verifyDeckOwnership, stGetCard, stGetDeck,
    stDelCard, stGetDeckCards, stPutDeckCards, stPutDeck, if_neg hne,
    hc, hd, ho]
  cases hdc : kvGet s.deckCards card.deckId with
  | none => simp [hdc, ho]
  | some ids => simp [hdc, ho]

/-! ## Concrete states used by witnesses and counterexamples -/

/-- A deck record owned by `u1`. -/
def deckD1rec : DeckRec :=
  { id := "d1", userId := "u1", name := "Spanish", description := "Words"
    created_at := "t0", updated_at := "t0" }

/-- A card record belonging to deck `d1`. -/
def cardC1rec : CardRec :=
  { id := "c1", deckId := "d1", front := "Hello", back := "Hola"
    tags := [], created_at := "t0", updated_at := "t0" }

/-- KV store holding deck `d1` (owner `u1`) with one card `c1`. -/
def st0 : St :=
  { decks := [("d1", deckD1rec)], userDecks := [("u1", ["d1"])]
    cards := [("c1", cardC1rec)], deckCards := [("d1", ["c1"])], log := [] }

/-- KV store where deck `d1`'s card-index lists `c1` and a dangling
`ghost` id whose record was removed directly from the store. -/
def stDrift : St :=
  { decks := [("d1", deckD1rec)], userDecks := [("u1", ["d1"])]
    cards := [("c1", cardC1rec)], deckCards := [("d1", ["c1", "ghost"])]
    log := [] }

/-- The empty KV store. -/
def stEmpty : St :=
  { decks := [], userDecks := [], cards := [], deckCards := [], log := [] }

/-- Store after owner `u1` creates deck A (`created_at` = `t1`). -/
def stA : St := (createDeck "u1" (some "A") none "t1" "idA" stEmpty).2

/-- … then deck B (`created_at` = `t2` > `t1`). -/
def stAB : St := (createDeck "u1" (some "B") none "t2" "idB" stA).2

/-- … then deck C (`created_at` = `t3` > `t2`). -/
def stABC : St := (createDeck "u1" (some "C") none "t3" "idC" stAB).2

/-- The deck ids of a `listDecks` success payload, in response order. -/
def resDeckIds : KVRes (List DeckRec × Nat) → List String
  | .ok _ p => p.1.map (fun d => d.id)
  | .err _ => []

/-- The deck creation timestamps of a `listDecks` success payload. -/
def resDeckCreated : KVRes (List DeckRec × Nat) → List String
  | .ok _ p => p.1.map (fun d => d.created_at)
  | .err _ => []

/-- The D1 `deck` table holding one deck `d1` owned by `u1`. -/
def spanishRow : DeckRow :=
  { id := "d1", name := "Spanish", description := "Words"
    created_at := 1, user_id := "u1" }

/-- The D1 `deck` table holding one deck `d1` owned by `alice`. -/
def aliceDeckRow : DeckRow :=
  { id := "d1", name := "Spanish", description := "Words"
    created_at := 1, user_id := "alice" }

/-- D1 state: `alice`'s deck `d1`, no cards. -/
def d1StAlice : D1St := { deck := [aliceDeckRow], card := [] }

/-- The card row `bob`'s create call inserts into `alice`'s deck. -/
def bobCardRow : CardRow :=
  { id := "c9", front := "Hello", back := "Hola", state := none
    stability := none, difficulty := none, due := none, last_review := none
    reps := none, lapses := none, created_at := 2, deck_id := "d1"
    user_id := "bob" }

/-- The D1 database holding `u1`'s deck `d1` and no cards. -/
def d1StU1 : D1St := { deck := [spanishRow], card := [] }

/-! ## Claims -/

/-- C5, counterexample: in the D1 implementation, deleting `u1`'s deck
`d1` twice yields success twice.  The first `Deck.delete` removes the row
and returns `{ data: true }`; the second call's `DELETE` matches zero
rows but still executes successfully, so it also returns `{ data: true }`
— a success, not the claimed `NotFound` outcome. -/
theorem d1_deck_delete_twice_success_not_notfound :
    (d1DeckDelete d1StU1 "d1" "u1" true).1 = .data true
    ∧ (d1DeckDelete d1StU1 "d1" "u1" true).2.deck = []
    ∧ (d1DeckDelete (d1DeckDelete d1StU1 "d1" "u1" true).2 "d1" "u1"
        true).1 = .data true
    ∧ (d1DeckDelete (d1DeckDelete d1StU1 "d1" "u1" true).2 "d1" "u1"
        true).1 ≠ .error "Deck not found or not authorized" := by
  refine ⟨by decide, by decide, by decide, by decide⟩

/-- C5, amended: calling `delete(D.id, O)` twice never crashes (both
embeddings are total functions of the state), but the two implementations
answer the second call differently.  The KV `deleteDeck` yields success
then the `404 DECK_NOT_FOUND` outcome.  The D1 `Deck.delete` reports
success on every executing call — its zero-row `DELETE` still has
`success = true` — so the second call also returns `{ data: true }`, and
an absent deck is indistinguishable from a deleted one. -/
theorem deleteDeck_twice_success_then_notfound
    (s : St) (userId deckId : String) (deck : DeckRec)
    (hne : ¬ deckId = "") (hd : kvGet s.decks deckId = some deck)
    (ho : deck.userId = userId) :
    ((deleteDeck userId deckId s).1 =
      .ok 200 ("Deck deleted successfully", deckId)
    ∧ (deleteDeck userId deckId (deleteDeck userId deckId s).2).1 =
      .err ⟨"Deck not found", 404, "DECK_NOT_FOUND"⟩)
    ∧ ∀ (st : D1St) (id uid : String),
        (d1DeckDelete st id uid true).1 = .data true
        ∧ (d1DeckDelete (d1DeckDelete st id uid true).2 id uid true).1 =
          .data true := by
  have hspec := deleteDeck_spec s userId deckId deck hne hd ho
  refine ⟨⟨by rw [hspec], ?_⟩, ?_⟩
  · rw [hspec]
    simp [deleteDeck, stGetDeck, if_neg hne, kvGet_kvDel_same]
  · intro st id uid
    exact ⟨by simp [d1DeckDelete], by simp [d1DeckDelete]⟩

/-- Witness for C5 (amended) at the concrete stores `st0` and `d1StU1`. -/
theorem deleteDeck_twice_success_then_notfound_witness :
    ((deleteDeck "u1" "d1" st0).1 =
      .ok 200 ("Deck deleted successfully", "d1")
    ∧ (deleteDeck "u1" "d1" (deleteDeck "u1" "d1" st0).2).1 =
      .err ⟨"Deck not found", 404, "DECK_NOT_FOUND"⟩)
    ∧ (d1DeckDelete d1StU1 "d1" "u1" true).1 = .data true
    ∧ (d1DeckDelete (d1DeckDelete d1StU1 "d1" "u1" true).2 "d1" "u1"
        true).1 = .data true :=
  ⟨(deleteDeck_twice_success_then_notfound st0 "u1" "d1" deckD1rec
      (by decide) (by decide) (by decide)).1,
   (deleteDeck_twice_success_then_notfound st0 "u1" "d1" deckD1rec
      (by decide) (by decide) (by decide)).2 d1StU1 "d1" "u1"⟩

/-- C7: for every deck `D` owned by `O`, `listCards(D.id, O)` succeeds
and returns exactly the cards of the card-index whose records resolve, in
index order, silently dropping the unresolvable ids — never an error. -/
theorem listCards_tolerates_dangling_ids
    (s : St) (userId deckId : String) (deck : DeckRec)
    (hne : ¬ deckId = "") (hd : kvGet s.decks deckId = some deck)
    (ho : deck.userId = userId) :
    (listCards userId deckId s).1 =
      .ok 200
        (((kvGet s.deckCards deckId).getD []).filterMap (kvGet s.cards),
         (((kvGet s.deckCards deckId).getD []).filterMap
           (kvGet s.cards)).length) := by
  simp [listCards, verifyDeckOwnership, stGetDeck, stGetDeckCards,
    if_neg hne, hd, ho, mapGetCard_eq, List.filterMap_map]

/-- Witness for C7 at `stDrift`, whose card-index holds the resolvable
id `c1` and the dangling id `ghost`. -/
theorem listCards_tolerates_dangling_ids_witness :
    (listCards "u1" "d1" stDrift).1 = .ok 200 ([cardC1rec], 1) :=
  (listCards_tolerates_dangling_ids stDrift "u1" "d1" deckD1rec
    (by decide) (by decide) (by decide)).trans (by decide)

/-- C3, counterexample: in the KV implementation, after
`deleteDeck("d1", "u1")` succeeds on `st0`, `listCards("d1", "u1")` does
not return an empty sequence — it returns the `DECK_NOT_FOUND` error,
because the deck record itself is gone and `listCards` ownership-checks
the deck first. -/
theorem listCards_after_deleteDeck_not_success :
    (deleteDeck "u1" "d1" st0).1 =
      .ok 200 ("Deck deleted successfully", "d1")
    ∧ (listCards "u1" "d1" (deleteDeck "u1" "d1" st0).2).1 =
      .err ⟨"Deck not found", 404, "DECK_NOT_FOUND"⟩
    ∧ (listCards "u1" "d1" (deleteDeck "u1" "d1" st0).2).1 ≠
      .ok 200 ([], 0) := by
  refine ⟨by decide, by decide, by decide⟩

/-- C3, amended: after `delete(D.id, O)` succeeds, `listCards(D.id, O)`
returns the `NotFound` error (the deck record no longer exists), never a
crash; and the cascade really is complete — D's card-index is gone and
every card id it held resolves to nothing. -/
theorem deleteDeck_cascade_removes_cards_list_notfound
    (s : St) (userId deckId : String) (deck : DeckRec)
    (hne : ¬ deckId = "") (hd : kvGet s.decks deckId = some deck)
    (ho : deck.userId = userId) :
    (deleteDeck userId deckId s).1 =
      .ok 200 ("Deck deleted successfully", deckId)
    ∧ (listCards userId deckId (deleteDeck userId deckId s).2).1 =
      .err ⟨"Deck not found", 404, "DECK_NOT_FOUND"⟩
    ∧ kvGet ((deleteDeck userId deckId s).2).deckCards deckId = none
    ∧ ∀ c ∈ (kvGet s.deckCards deckId).getD [],
        kvGet ((deleteDeck userId deckId s).2).cards c = none := by
  have hspec := deleteDeck_spec s userId deckId deck hne hd ho
  refine ⟨by rw [hspec], ?_, ?_, ?_⟩
  · rw [hspec]
    simp [listCards, verifyDeckOwnership, stGetDeck, if_neg hne,
      kvGet_kvDel_same]
  · rw [hspec]
    exact kvGet_kvDel_same s.deckCards deckId
  · intro c hc
    rw [hspec]
    exact kvGet_foldl_kvDel _ s.cards c hc

/-- Witness for C3 (amended) at the concrete store `st0`. -/
theorem deleteDeck_cascade_removes_cards_list_notfound_witness :
    (deleteDeck "u1" "d1" st0).1 =
      .ok 200 ("Deck deleted successfully", "d1")
    ∧ (listCards "u1" "d1" (deleteDeck "u1" "d1" st0).2).1 =
      .err ⟨"Deck not found", 404, "DECK_NOT_FOUND"⟩
    ∧ kvGet ((deleteDeck "u1" "d1" st0).2).deckCards "d1" = none
    ∧ ∀ c ∈ (kvGet st0.deckCards "d1").getD [],
        kvGet ((deleteDeck "u1" "d1" st0).2).cards c = none :=
  deleteDeck_cascade_removes_cards_list_notfound st0 "u1" "d1" deckD1rec
    (by decide) (by decide) (by decide)

/-- C4: deck deletion in the KV implementation performs the card
deletions (and the card-index deletion) strictly before the deck record
removal and the owner-index pruning — the appended trace is exactly the
card deletes, then the card-index delete, then the deck delete, then the
owner-index update; and in the D1 route, when `Card.deleteByDeck` fails,
`Deck.delete` never runs and the database is untouched. -/
theorem deleteDeck_card_deletes_precede_deck_removal
    (s : St) (userId deckId : String) (deck : DeckRec)
    (hne : ¬ deckId = "") (hd : kvGet s.decks deckId = some deck)
    (ho : deck.userId = userId) :
    ((deleteDeck userId deckId s).2.log =
      s.log ++ [Op.getDeck deckId, Op.getDeckCards deckId]
        ++ ((kvGet s.deckCards deckId).getD []).map Op.delCard
        ++ [Op.delDeckCards deckId, Op.delDeck deckId,
            Op.getUserDecks userId]
        ++ match kvGet s.userDecks userId with
           | none => []
           | some _ => [Op.putUserDecks userId])
    ∧ ∀ (st : D1St) (id uid : String) (deckOk : Bool),
        d1DeckDeleteRoute st id uid false deckOk =
          (.error "Failed to delete cards", st) := by
  refine ⟨?_, ?_⟩
  · rw [deleteDeck_spec s userId deckId deck hne hd ho]
  · intro st id uid deckOk
    simp [d1DeckDeleteRoute, d1CardDeleteByDeck]

/-- Witness for C4 at the concrete store `st0`. -/
theorem deleteDeck_card_deletes_precede_deck_removal_witness :
    ((deleteDeck "u1" "d1" st0).2.log =
      st0.log ++ [Op.getDeck "d1", Op.getDeckCards "d1"]
        ++ ((kvGet st0.deckCards "d1").getD []).map Op.delCard
        ++ [Op.delDeckCards "d1", Op.delDeck "d1", Op.getUserDecks "u1"]
        ++ match kvGet st0.userDecks "u1" with
           | none => []
           | some _ => [Op.putUserDecks "u1"])
    ∧ ∀ (st : D1St) (id uid : String) (deckOk : Bool),
        d1DeckDeleteRoute st id uid false deckOk =
          (.error "Failed to delete cards", st) :=
  deleteDeck_card_deletes_precede_deck_removal st0 "u1" "d1" deckD1rec
    (by decide) (by decide) (by decide)

/-- C2, counterexample: in the KV implementation, `getDeck` run by `u2`
against `u1`'s deck `d1` returns `403 FORBIDDEN`, while the same call
against a nonexistent id returns `404 DECK_NOT_FOUND` — the two outcomes
are distinguishable, so a caller can detect that a foreign deck exists. -/
theorem getDeck_foreign_vs_missing_distinguishable :
    (getDeck "u2" "d1" st0).1 =
      .err ⟨"Unauthorized access to deck", 403, "FORBIDDEN"⟩
    ∧ (getDeck "u2" "nope" st0).1 =
      .err ⟨"Deck not found", 404, "DECK_NOT_FOUND"⟩
    ∧ (getDeck "u2" "d1" st0).1 ≠ (getDeck "u2" "nope" st0).1 := by
  refine ⟨by decide, by decide, by decide⟩

/-- C2, amended: in the D1 implementation `Deck.get` returns one and the
same failure for an absent id and for a deck owned by someone else
(indistinguishable, no existence leakage); the KV `getDeck` instead
returns `403 FORBIDDEN` on an ownership mismatch, distinguishable from
the `404 DECK_NOT_FOUND` returned for an absent id. -/
theorem get_absent_and_foreign_outcomes :
    (∀ (tbl : List DeckRow) (idA idB uid : String),
      (∀ r ∈ tbl, r.id = idA → r.user_id ≠ uid) →
      (∀ r ∈ tbl, r.id ≠ idB) →
      d1DeckGet tbl idA uid = .error "Failed to get deck"
      ∧ d1DeckGet tbl idB uid = .error "Failed to get deck")
    ∧ (∀ (s : St) (deckId uid : String) (deck : DeckRec),
        ¬ deckId = "" → kvGet s.decks deckId = some deck →
        deck.userId ≠ uid →
        (getDeck uid deckId s).1 =
          .err ⟨"Unauthorized access to deck", 403, "FORBIDDEN"⟩)
    ∧ (∀ (s : St) (deckId uid : String),
        ¬ deckId = "" → kvGet s.decks deckId = none →
        (getDeck uid deckId s).1 =
          .err ⟨"Deck not found", 404, "DECK_NOT_FOUND"⟩) := by
  refine ⟨?_, ?_, ?_⟩
  · intro tbl idA idB uid hA hB
    constructor
    · have hfind : tbl.find?
          (fun r => r.id = idA && r.user_id = uid) = none := by
        rw [List.find?_eq_none]
        intro r hr
        simp only [Bool.and_eq_true, decide_eq_true_eq, not_and]
        exact fun h1 => hA r hr h1
      simp [d1DeckGet, hfind]
    · have hfind : tbl.find?
          (fun r => r.id = idB && r.user_id = uid) = none := by
        rw [List.find?_eq_none]
        intro r hr
        simp only [Bool.and_eq_true, decide_eq_true_eq, not_and]
        exact fun h1 => absurd h1 (hB r hr)
      simp [d1DeckGet, hfind]
  · intro s deckId uid deck hne hd hno
    simp [getDeck, stGetDeck, if_neg hne, hd, hno]
  · intro s deckId uid hne hd
    simp [getDeck, stGetDeck, if_neg hne, hd]

/-- Witness for C2 (amended) at a concrete table and store. -/
theorem get_absent_and_foreign_outcomes_witness :
    (d1DeckGet [spanishRow] "d1" "u2" = .error "Failed to get deck"
      ∧ d1DeckGet [spanishRow] "nope" "u2" = .error "Failed to get deck")
    ∧ (getDeck "u2" "d1" st0).1 =
        .err ⟨"Unauthorized access to deck", 403, "FORBIDDEN"⟩
    ∧ (getDeck "u2" "nope" st0).1 =
        .err ⟨"Deck not found", 404, "DECK_NOT_FOUND"⟩ :=
  ⟨get_absent_and_foreign_outcomes.1 [spanishRow] "d1" "nope" "u2"
      (by decide) (by decide),
   get_absent_and_foreign_outcomes.2.1 st0 "d1" "u2" deckD1rec
      (by decide) (by decide) (by decide),
   get_absent_and_foreign_outcomes.2.2 st0 "nope" "u2"
      (by decide) (by decide)⟩

/-- The `ORDER BY created_at DESC` comparison on deck rows is total. -/
instance : IsTotal DeckRow (fun a b => b.created_at ≤ a.created_at) :=
  ⟨fun a b => le_total b.created_at a.created_at⟩

/-- The `ORDER BY created_at DESC` comparison on deck rows is
transitive. -/
instance : IsTrans DeckRow (fun a b => b.created_at ≤ a.created_at) :=
  ⟨fun _ _ _ hab hbc => le_trans hbc hab⟩

/-- C6, counterexample: in the KV implementation, after owner `u1`
creates decks A (`created_at` = `t1`), then B (`t2`), then C (`t3`),
`listDecks` returns them in creation order A, B, C — oldest first, not
the claimed C, B, A. -/
theorem listDecks_returns_creation_order :
    resDeckIds (listDecks "u1" stABC).1 = ["idA", "idB", "idC"]
    ∧ resDeckCreated (listDecks "u1" stABC).1 = ["t1", "t2", "t3"]
    ∧ resDeckIds (listDecks "u1" stABC).1 ≠ ["idC", "idB", "idA"] := by
  refine ⟨by decide, by decide, by decide⟩

/-- C6, amended: the D1 `Deck.list` orders by `created_at` descending
(newest first, C then B then A); the KV `listDecks` performs no sort — it
always succeeds with the decks of the owner-index resolved in index
(insertion, hence creation) order, dropping ids that resolve to
nothing. -/
theorem list_ordering_d1_desc_kv_index_order :
    (∀ (tbl : List DeckRow) (uid : String),
      List.Sorted (fun a b => b.created_at ≤ a.created_at)
        (d1DeckList tbl uid))
    ∧ ∀ (s : St) (uid : String),
        (listDecks uid s).1 =
          .ok 200
            (((kvGet s.userDecks uid).getD []).filterMap (kvGet s.decks),
             (((kvGet s.userDecks uid).getD []).filterMap
               (kvGet s.decks)).length) := by
  refine ⟨?_, ?_⟩
  · intro tbl uid
    exact List.sorted_insertionSort _ _
  · intro s uid
    simp [listDecks, stGetUserDecks, mapGetDeck_eq, List.filterMap_map]

/-- C10: in the KV implementation, every successful card create, update
or delete also rewrites the parent deck's stored record (a `putDeck` of
the parent key appears in the trace), and the rewritten record differs
from the one read only in `updated_at` — `id`, `userId`, `name`,
`description`, `created_at` are unchanged. -/
theorem card_mutations_rewrite_parent_deck_updated_at :
    (∀ (s : St) (userId deckId : String) (front back : Option String)
        (tags : Option (List String)) (now freshCardId : String),
      (createCard userId deckId front back tags now freshCardId s).1.isOk
          = true →
      kvGet ((createCard userId deckId front back tags now freshCardId
            s).2).decks deckId
        = (kvGet s.decks deckId).map (fun d => { d with updated_at := now })
      ∧ Op.putDeck deckId ∈
          ((createCard userId deckId front back tags now freshCardId
            s).2).log)
    ∧ (∀ (s : St) (userId cardId : String) (front back : Option String)
          (tags : Option (List String)) (now : String),
        (updateCard userId cardId front back tags now s).1.isOk = true →
        ∃ card deck, kvGet s.cards cardId = some card
          ∧ kvGet s.decks card.deckId = some deck
          ∧ kvGet ((updateCard userId cardId front back tags now
                s).2).decks card.deckId
              = some { deck with updated_at := now }
          ∧ Op.putDeck card.deckId ∈
              ((updateCard userId cardId front back tags now s).2).log)
    ∧ ∀ (s : St) (userId cardId now : String),
        (deleteCard userId cardId now s).1.isOk = true →
        ∃ card deck, kvGet s.cards cardId = some card
          ∧ kvGet s.decks card.deckId = some deck
          ∧ kvGet ((deleteCard userId cardId now s).2).decks card.deckId
              = some { deck with updated_at := now }
          ∧ Op.putDeck card.deckId ∈
              ((deleteCard userId cardId now s).2).log := by
  refine ⟨?_, ?_, ?_⟩
  · intro s userId deckId front back tags now freshCardId h
    by_cases h1 : deckId = ""
    · rw [createCard] at h
      simp [h1, KVRes.isOk] at h
    by_cases h2 : (jsFalsy front || jsFalsy back) = true
    · rw [createCard] at h
      simp [if_neg h1, h2, KVRes.isOk] at h
    cases hv : kvGet s.decks deckId with
    | none =>
      rw [createCard] at h
      simp [if_neg h1, h2, verifyDeckOwnership, stGetDeck, hv,
        KVRes.isOk] at h
    | some deck =>
      by_cases ho : deck.userId = userId
      · rw [createCard_success_spec s userId deckId front back tags now
          freshCardId deck h1 h2 hv ho]
        exact ⟨by simp [kvGet_kvPut_same], by simp⟩
      · rw [createCard] at h
        simp [if_neg h1, h2, verifyDeckOwnership, stGetDeck, hv, ho,
          KVRes.isOk] at h
  · intro s userId cardId front back tags now h
    by_cases h1 : cardId = ""
    · rw [updateCard] at h
      simp [h1, KVRes.isOk] at h
    cases hcc : kvGet s.cards cardId with
    | none =>
      rw [updateCard] at h
      simp [if_neg h1, stGetCard, hcc, KVRes.isOk] at h
    | some card =>
      cases hv : kvGet s.decks card.deckId with
      | none =>
        rw [updateCard] at h
        simp [if_neg h1, stGetCard, hcc, verifyDeckOwnership, stGetDeck,
          hv, KVRes.isOk] at h
      | some deck =>
        by_cases ho : deck.userId = userId
        · refine ⟨card, deck, rfl, hv, ?_, ?_⟩
          · rw [updateCard_success_spec s userId cardId front back tags
              now card deck h1 hcc hv ho, kvGet_kvPut_same]
          · rw [updateCard_success_spec s userId cardId front back tags
              now card deck h1 hcc hv ho]
            simp
        · rw [updateCard] at h
          simp [if_neg h1, stGetCard, hcc, verifyDeckOwnership,
            stGetDeck, hv, ho, KVRes.isOk] at h
  · intro s userId cardId now h
    by_cases h1 : cardId = ""
    · rw [deleteCard] at h
      simp [h1, KVRes.isOk] at h
    cases hcc : kvGet s.cards cardId with
    | none =>
      rw [deleteCard] at h
      simp [if_neg h1, stGetCard, hcc, KVRes.isOk] at h
    | some card =>
      cases hv : kvGet s.decks card.deckId with
      | none =>
        rw [deleteCard] at h
        simp [if_neg h1, stGetCard, hcc, verifyDeckOwnership, stGetDeck,
          hv, KVRes.isOk] at h
      | some deck =>
        by_cases ho : deck.userId = userId
        · refine ⟨card, deck, rfl, hv, ?_, ?_⟩
          · rw [deleteCard_success_spec s userId cardId now card deck
              h1 hcc hv ho, kvGet_kvPut_same]
          · rw [deleteCard_success_spec s userId cardId now card deck
              h1 hcc hv ho]
            simp
        · rw [deleteCard] at h
          simp [if_neg h1, stGetCard, hcc, verifyDeckOwnership,
            stGetDeck, hv, ho, KVRes.isOk] at h

/-- Witness for C10: a card create, update and delete against `st0`, all
successful, each leaving the parent deck `d1` rewritten with only
`updated_at` changed. -/
theorem card_mutations_rewrite_parent_deck_updated_at_witness :
    (kvGet ((createCard "u1" "d1" (some "F") (some "B") none "t9" "c7"
          st0).2).decks "d1"
        = (kvGet st0.decks "d1").map
            (fun d => { d with updated_at := "t9" })
      ∧ Op.putDeck "d1" ∈
          ((createCard "u1" "d1" (some "F") (some "B") none "t9" "c7"
            st0).2).log)
    ∧ (∃ card deck, kvGet st0.cards "c1" = some card
        ∧ kvGet st0.decks card.deckId = some deck
        ∧ kvGet ((updateCard "u1" "c1" (some "F2") none none "t9"
              st0).2).decks card.deckId
            = some { deck with updated_at := "t9" }
        ∧ Op.putDeck card.deckId ∈
            ((updateCard "u1" "c1" (some "F2") none none "t9" st0).2).log)
    ∧ ∃ card deck, kvGet st0.cards "c1" = some card
        ∧ kvGet st0.decks card.deckId = some deck
        ∧ kvGet ((deleteCard "u1" "c1" "t9" st0).2).decks card.deckId
            = some { deck with updated_at := "t9" }
        ∧ Op.putDeck card.deckId ∈
            ((deleteCard "u1" "c1" "t9" st0).2).log :=
  ⟨card_mutations_rewrite_parent_deck_updated_at.1 st0 "u1" "d1"
      (some "F") (some "B") none "t9" "c7" (by decide),
   card_mutations_rewrite_parent_deck_updated_at.2.1 st0 "u1" "c1"
      (some "F2") none none "t9" (by decide),
   card_mutations_rewrite_parent_deck_updated_at.2.2 st0 "u1" "c1" "t9"
      (by decide)⟩

/-- C1: evaluation of the D1 `Deck.update` at its failing input.  With
deck `d1` (name `"Spanish"`) owned by `u1` in the table, updating it to
name `"X"` leaves the table bitwise unchanged — the `UPDATE`'s `WHERE`
clause binds the freshly generated `Id.new()` value (`"zz7q9m2x5"`
here), which matches no row, so the name never becomes `"X"` even though
the statement itself succeeds. -/
theorem d1_deck_update_fresh_id_leaves_table_unchanged :
    d1DeckUpdate [spanishRow] "X" "Words" "zz7q9m2x5" "u1" = [spanishRow]
    ∧ [spanishRow].map (fun r => r.name) = ["Spanish"]
    ∧ ("Spanish" : String) ≠ "X" := by
  refine ⟨by decide, by decide, by decide⟩

/-- C8: evaluation of the D1 `Card.create` at its failing input.  Deck
`d1` belongs to `alice`, yet `bob`'s create call referencing `deck_id`
`d1` succeeds — the insert checks only the schema constraints, never that
the referenced deck belongs to the caller — and the card row is written. -/
theorem d1_card_create_ignores_deck_ownership :
    (d1CardCreate d1StAlice "c9" "Hello" "Hola" none none none none none
        none none 2 "d1" "bob").1 = .data bobCardRow
    ∧ (d1CardCreate d1StAlice "c9" "Hello" "Hola" none none none none
        none none none 2 "d1" "bob").2.card = [bobCardRow]
    ∧ d1StAlice.deck.map (fun r => r.user_id) = ["alice"]
    ∧ bobCardRow.user_id = "bob"
    ∧ ("alice" : String) ≠ "bob" := by
  refine ⟨by decide, by decide, by decide, by decide, by decide⟩

/-- C9: evaluation of `Id.new()` at its failing input.  When
`Math.random()` yields `0` (a value inside its documented `[0, 1)`
range), `(0).toString(32)` is `"0"` and `.slice(2)` of it is the empty
string — so `Id.new()` can return `""`.  On a nonzero sample the model
behaves normally (`0.5` renders as `"0.g"`, giving the id `"g"`). -/
theorem idNew_empty_at_zero :
    idNew 0 = "" ∧ idNew (2 ^ 52) = "g" := by
  refine ⟨by decide, by decide⟩

end MemoizeStore
